import Mathlib

/-!
Verification development for the `playwright-test-automation` repository.

The development embeds the two components the specification singles out:

* `TOTPUtil` (tests/utils/totp.util.ts): secret storage lifecycle
  (`setSecret` / `validateSecret` / `generateTOTP` / `clearSecret`) over a
  state record holding the in-memory encrypted secret and the process-wide
  global storage slot.  The CryptoJS AES pair is an external library and is
  modelled as an invertible wrap/unwrap pair; the otplib `authenticator`
  is an external library and is modelled from the specification's
  description of the standard RFC 6238 algorithm (base32 key decoding,
  HMAC-SHA1, dynamic truncation, counter = unixTime / 30, six digits).

* The `LoginPage` page objects (tests/pages/login-page.ts and the second,
  unnamed variant of the same class): the per-step retry loops and the
  `loginWithDynamicTOTP` flows.  The browser automation layer is an
  external collaborator; each UI interaction is modelled as an
  environment-supplied outcome, and the embeddings reproduce the retry /
  catch / URL-inspection control flow of the source exactly.
-/

/-! ## TOTP algorithm (otplib `authenticator`, external library)

Modelled from the spec: the otplib `authenticator.generate` call used by
`TOTPUtil.generateTOTP` is an external dependency whose code is not part of
the repository.  The spec describes it as "the standard
counter = floor(unixTime / 30), HMAC-based algorithm, 6-digit truncation"
over "a base32-encoded shared secret", i.e. RFC 6238 with HMAC-SHA1.
The functions below implement exactly that, over `Nat` with explicit
reduction mod 2^32.  Characters outside the RFC 4648 base32 alphabet are
skipped by the key decoder. -/

/-- Reduce a natural number to a 32-bit word. -/
def u32 (n : Nat) : Nat := n % 4294967296

/-- Left rotation of a 32-bit word by `s` bits. -/
def rotl32 (n s : Nat) : Nat := u32 ((n <<< s) ||| (n >>> (32 - s)))

/-- The SHA-1 round constant for round `i`. -/
def sha1K (i : Nat) : Nat :=
  if i < 20 then 0x5A827999
  else if i < 40 then 0x6ED9EBA1
  else if i < 60 then 0x8F1BBCDC
  else 0xCA62C1D6

/-- The SHA-1 round function for round `i` (Ch / Parity / Maj / Parity). -/
def sha1F (i b c d : Nat) : Nat :=
  if i < 20 then (b &&& c) ||| ((b ^^^ 0xFFFFFFFF) &&& d)
  else if i < 40 then b ^^^ c ^^^ d
  else if i < 60 then (b &&& c) ||| (b &&& d) ||| (c &&& d)
  else b ^^^ c ^^^ d

/-- Big-endian 4-byte encoding of a 32-bit word. -/
def beBytes4 (n : Nat) : List Nat :=
  [(n >>> 24) &&& 255, (n >>> 16) &&& 255, (n >>> 8) &&& 255, n &&& 255]

/-- Big-endian 8-byte encoding of a 64-bit value. -/
def beBytes8 (n : Nat) : List Nat :=
  [(n >>> 56) &&& 255, (n >>> 48) &&& 255, (n >>> 40) &&& 255, (n >>> 32) &&& 255,
   (n >>> 24) &&& 255, (n >>> 16) &&& 255, (n >>> 8) &&& 255, n &&& 255]

/-- Group four consecutive bytes into big-endian 32-bit words. -/
def bytesToWords : List Nat → List Nat
  | b0 :: b1 :: b2 :: b3 :: rest =>
      (b0 * 16777216 + b1 * 65536 + b2 * 256 + b3) :: bytesToWords rest
  | _ => []

/-- Extend the 16-word message block, pushing one scheduled word per fuel
unit (the SHA-1 recurrence `w[i] = rotl1 (w[i-3] ^ w[i-8] ^ w[i-14] ^ w[i-16])`). -/
def sha1ExtendGo : Array Nat → Nat → Array Nat
  | w, 0 => w
  | w, fuel + 1 =>
      let i := w.size
      sha1ExtendGo
        (w.push (rotl32 ((w.getD (i - 3) 0) ^^^ (w.getD (i - 8) 0) ^^^
                         (w.getD (i - 14) 0) ^^^ (w.getD (i - 16) 0)) 1))
        fuel

/-- The 80-round SHA-1 compression loop over the scheduled words. -/
def sha1RoundGo (w : Array Nat) : Nat → Nat × Nat × Nat × Nat × Nat → Nat → Nat × Nat × Nat × Nat × Nat
  | _, st, 0 => st
  | i, (a, b, c, d, e), fuel + 1 =>
      let t := u32 (rotl32 a 5 + sha1F i b c d + e + sha1K i + w.getD i 0)
      sha1RoundGo w (i + 1) (t, a, rotl32 b 30, c, d) fuel

/-- Fold the SHA-1 compression function over a list of 64-byte blocks. -/
def sha1Blocks : List (List Nat) → Nat × Nat × Nat × Nat × Nat → Nat × Nat × Nat × Nat × Nat
  | [], h => h
  | blk :: rest, (h0, h1, h2, h3, h4) =>
      let w := sha1ExtendGo (Array.mk (bytesToWords blk)) 64
      let (a, b, c, d, e) := sha1RoundGo w 0 (h0, h1, h2, h3, h4) 80
      sha1Blocks rest (u32 (h0 + a), u32 (h1 + b), u32 (h2 + c), u32 (h3 + d), u32 (h4 + e))

/-- Split a byte list into 64-byte chunks; the fuel is an upper bound on the
number of chunks, so passing the list length always suffices. -/
def chunk64 : Nat → List Nat → List (List Nat)
  | 0, _ => []
  | _ + 1, [] => []
  | fuel + 1, l => l.take 64 :: chunk64 fuel (l.drop 64)

/-- SHA-1 padding: append `0x80`, zero bytes up to 56 mod 64, and the
message bit length as a big-endian 64-bit value. -/
def sha1Pad (msg : List Nat) : List Nat :=
  msg ++ 0x80 :: List.replicate ((119 - msg.length % 64) % 64) 0 ++ beBytes8 (msg.length * 8)

/-- SHA-1 of a byte list, as the 20-byte digest. -/
def sha1 (msg : List Nat) : List Nat :=
  let padded := sha1Pad msg
  let (h0, h1, h2, h3, h4) :=
    sha1Blocks (chunk64 padded.length padded)
      (0x67452301, 0xEFCDAB89, 0x98BADCFE, 0x10325476, 0xC3D2E1F0)
  beBytes4 h0 ++ beBytes4 h1 ++ beBytes4 h2 ++ beBytes4 h3 ++ beBytes4 h4

/-- HMAC-SHA1 (FIPS 198-1) with a 64-byte block size. -/
def hmacSha1 (key msg : List Nat) : List Nat :=
  let k0 := if 64 < key.length then sha1 key else key
  let k := k0 ++ List.replicate (64 - k0.length) 0
  sha1 ((k.map fun b => b ^^^ 0x5C) ++ sha1 ((k.map fun b => b ^^^ 0x36) ++ msg))

/-- The 5-bit value of an RFC 4648 base32 alphabet character (`A`-`Z`,
`2`-`7`, case-insensitive); `none` for characters outside the alphabet. -/
def b32Val (c : Char) : Option Nat :=
  let u := c.toUpper
  if 'A' ≤ u ∧ u ≤ 'Z' then some (u.toNat - 65)
  else if '2' ≤ u ∧ u ≤ '7' then some (u.toNat - 50 + 26)
  else none

/-- Base32 bit accumulator: consume 5 bits per alphabet character, emit a
byte whenever 8 bits are available, skip non-alphabet characters, drop
leftover bits. -/
def base32DecodeGo : List Char → Nat → Nat → List Nat
  | [], _, _ => []
  | c :: cs, acc, bits =>
      match b32Val c with
      | none => base32DecodeGo cs acc bits
      | some v =>
          let acc2 := acc * 32 + v
          let bits2 := bits + 5
          if 8 ≤ bits2 then
            ((acc2 >>> (bits2 - 8)) &&& 255) ::
              base32DecodeGo cs (acc2 &&& ((1 <<< (bits2 - 8)) - 1)) (bits2 - 8)
          else
            base32DecodeGo cs acc2 bits2

/-- Decode a base32-encoded secret into key bytes. -/
def base32Decode (s : String) : List Nat := base32DecodeGo s.data 0 0

/-- HOTP (RFC 4226): HMAC-SHA1 of the big-endian counter, dynamic
truncation, reduced mod 10^6. -/
def hotp (key : List Nat) (counter : Nat) : Nat :=
  let h := hmacSha1 key (beBytes8 counter)
  let off := (h.getD 19 0) &&& 15
  let bin := (((h.getD off 0) &&& 127) <<< 24) ||| ((h.getD (off + 1) 0) <<< 16) |||
             ((h.getD (off + 2) 0) <<< 8) ||| (h.getD (off + 3) 0)
  bin % 1000000

/-- Render a truncated HOTP value as exactly six decimal digit characters
(zero-padded on the left). -/
def totpFormat (n : Nat) : String :=
  String.mk [Nat.digitChar (n / 100000 % 10), Nat.digitChar (n / 10000 % 10),
             Nat.digitChar (n / 1000 % 10), Nat.digitChar (n / 100 % 10),
             Nat.digitChar (n / 10 % 10), Nat.digitChar (n % 10)]

/-- Modelled from the spec: otplib `authenticator.generate` — the current
TOTP value of `secret` at Unix time `time`, using counter `time / 30`. -/
def authGenerate (secret : String) (time : Nat) : String :=
  totpFormat (hotp (base32Decode secret) (time / 30))

/-! ## TOTPUtil (tests/utils/totp.util.ts)

The class holds two pieces of mutable state: the static field
`encryptedSecret` and the process-wide slot `global['playwright_totp_secret']`.
Both store the AES-encrypted secret.  CryptoJS AES encryption under the
fixed process key is an external library call; it is modelled as an opaque
invertible wrapper `Cipher` with `decryptSecret (encryptSecret s) = s`,
which is the only property the utility relies on. -/

/-- The AES ciphertext of a secret under the process-level key
(`CryptoJS.AES.encrypt` / `decrypt` round-trip, modelled invertibly). -/
structure Cipher where
  plain : String
deriving DecidableEq, Repr

/-- The mutable state of `TOTPUtil`: the static `encryptedSecret` field and
the process-wide `global['playwright_totp_secret']` slot. -/
structure TOTPState where
  encryptedSecret : Option Cipher
  globalSlot : Option Cipher
deriving DecidableEq, Repr

/-- The state in which no secret has ever been stored. -/
def emptyState : TOTPState := ⟨none, none⟩

/-- The errors `TOTPUtil` can raise.  `invalidSecretFormat` is the thrown
`Error('Invalid TOTP secret format')`, `noSecretAvailable` the thrown
`Error('No TOTP secret available')`; `external msg` stands for an arbitrary
error thrown by an external library call reaching `generateTOTP`'s catch
block.  The source defines no further error class of its own. -/
inductive TOTPError
  | invalidSecretFormat
  | noSecretAvailable
  | external (msg : String)
deriving DecidableEq, Repr

/-- `TOTPUtil.encryptSecret`: AES-encrypt the secret (modelled wrapper). -/
def encryptSecret (s : String) : Cipher := ⟨s⟩

/-- `TOTPUtil.decryptSecret`: AES-decrypt a stored secret (modelled unwrap). -/
def decryptSecret (c : Cipher) : String := c.plain

/-- `TOTPUtil.validateSecret`: `!!secret && secret.length >= 16`.
The truthiness test `!!secret` is false exactly for the empty string (the
parameter is string-typed). -/
def validateSecret (s : String) : Bool := !(s == "") && decide (16 ≤ s.length)

/-- `TOTPUtil.setSecret`: validate, then store the encrypted secret in the
static field and in the process-wide slot.  Validation happens before any
mutation, so a failed call leaves the state untouched (the caller keeps its
state on `.error`). -/
def setSecret (s : String) (_st : TOTPState) : Except TOTPError TOTPState :=
  if !(validateSecret s) then .error .invalidSecretFormat
  else .ok { encryptedSecret := some (encryptSecret s), globalSlot := some (encryptSecret s) }

/-- `TOTPUtil.clearSecret`: null the static field and delete the
process-wide slot.  Total — the source swallows any deletion error. -/
def clearSecret (_ : TOTPState) : TOTPState := ⟨none, none⟩

/-- The `else` branch of `generateTOTP` (no usable override): read
`this.encryptedSecret || global[this.storageKey]`, fail with
`noSecretAvailable` when both are absent, otherwise decrypt, re-store into
the static field, validate, and call the generator. -/
def generateStored (gen : String → Nat → Except TOTPError String) (st : TOTPState) (t : Nat) :
    Except TOTPError (String × TOTPState) :=
  let stored : Option Cipher :=
    match st.encryptedSecret with
    | some c => some c
    | none => st.globalSlot
  match stored with
  | none => .error .noSecretAvailable
  | some c =>
      let totpSecret := decryptSecret c
      let st2 : TOTPState := { st with encryptedSecret := some c }
      if !(validateSecret totpSecret) then .error .invalidSecretFormat
      else
        match gen totpSecret t with
        | .error e => .error e
        | .ok code => .ok (code, st2)

/-- `TOTPUtil.generateTOTP`, parameterized by the external generator `gen`
(the otplib call, which may itself throw).  `if (secret)` is truthy only
for a non-empty provided string; that branch stores the override through
`setSecret` (propagating its validation error), re-validates, and
generates.  The surrounding try/catch logs and rethrows the error
unchanged, so error propagation is the identity. -/
def generateTOTPWith (gen : String → Nat → Except TOTPError String) (secret : Option String)
    (st : TOTPState) (t : Nat) : Except TOTPError (String × TOTPState) :=
  match secret with
  | some s =>
      if s == "" then generateStored gen st t
      else
        match setSecret s st with
        | .error e => .error e
        | .ok st2 =>
            if !(validateSecret s) then .error .invalidSecretFormat
            else
              match gen s t with
              | .error e => .error e
              | .ok code => .ok (code, st2)
  | none => generateStored gen st t

/-- The otplib generator as used in production: a pure, total computation
of the RFC 6238 value (modelled from the spec, see `authGenerate`). -/
def authGenerateE (s : String) (t : Nat) : Except TOTPError String := .ok (authGenerate s t)

/-- `TOTPUtil.generateTOTP` with the concrete otplib generator. -/
def generateTOTP (secret : Option String) (st : TOTPState) (t : Nat) :
    Except TOTPError (String × TOTPState) :=
  generateTOTPWith authGenerateE secret st t

/-! ## String containment

`String.prototype.includes`, used by the page objects for URL inspection. -/

/-- Does `needle` occur as a contiguous run inside `hay`? -/
def hasSub (hay needle : List Char) : Bool :=
  if needle.isPrefixOf hay then true
  else
    match hay with
    | [] => false
    | _ :: t => hasSub t needle

/-- `s.includes(sub)` of JavaScript strings. -/
def strIncludes (s sub : String) : Bool := hasSub s.data sub.data

/-! ## Step tags

Observable login-step attempts, used to record which UI steps a login flow
executed (and in which order).  `totpRequest` marks the call into
`TOTPUtil.generateTOTP` made at the start of `enter2FACode`. -/

/-- A login step observed during a flow run. -/
inductive StepTag
  | gotoStep
  | verifyLoginPage
  | changeUser
  | enterUser
  | verifyPwd
  | enterPwd
  | clickCont
  | verify2FA
  | totpRequest
  | enter2FA
  | click2FA
  | verifySuccess
deriving DecidableEq, Repr

/-- Run one step: on failure the flow aborts with the step's error; on
success the remainder `rest` runs.  The attempted step is recorded in the
trace either way. -/
def seqStep (tag : StepTag) (r : Except String Unit)
    (rest : Except String Unit × List StepTag) : Except String Unit × List StepTag :=
  match r with
  | .error e => (.error e, [tag])
  | .ok _ => (rest.1, tag :: rest.2)

/-! ## LoginPage (tests/pages/login-page.ts)

Every per-step method of this class is the same loop:

    let retries = this.retryAttempts;
    while (retries > 0) {
      try { ...attempt...; return; }
      catch (e) { lastError = e; retries--; if (retries > 0) wait(retryDelay); }
    }
    throw new Error(`... after ${this.retryAttempts} attempts: ${lastError}`)

The attempt body is browser interaction (an external collaborator) and is
supplied by the environment `env : Nat → Except String Unit`, giving the
outcome of attempt number `i`. -/

namespace LoginPageTs

/-- `navigationTimeout` field of the class (milliseconds). -/
def navigationTimeout : Nat := 90000

/-- `retryAttempts` field of the class: the per-step retry budget. -/
def retryAttempts : Nat := 5

/-- `retryDelay` field of the class (milliseconds between attempts). -/
def retryDelay : Nat := 3000

/-- The data carried by the error a step throws after exhausting its
budget: the attempt count interpolated into the message (the source writes
`after ${this.retryAttempts} attempts`) and the last attempt's error. -/
structure FailInfo where
  recorded : Nat
  lastErr : String
deriving DecidableEq, Repr

/-- Outcome of running one step: its result, the number of attempts
executed, and the number of `retryDelay` waits performed between them. -/
structure StepRun where
  result : Except FailInfo Unit
  attempts : Nat
  waits : Nat
deriving Repr

/-- The while-loop of a step, with `cfg` the configured budget, the
remaining-retries counter, the attempts made, the waits performed, and the
last error seen.  A wait is performed only when retries remain after the
decrement, exactly as in the source. -/
def runStepGo (env : Nat → Except String Unit) (cfg : Nat) :
    Nat → Nat → Nat → String → StepRun
  | 0, made, waits, le => ⟨.error ⟨cfg, le⟩, made, waits⟩
  | r + 1, made, waits, _ =>
      match env made with
      | .ok _ => ⟨.ok (), made + 1, waits⟩
      | .error e =>
          if 0 < r then runStepGo env cfg r (made + 1) (waits + 1) e
          else runStepGo env cfg r (made + 1) waits e

/-- Run a step with budget `cfg` from a fresh loop state. -/
def runStep (cfg : Nat) (env : Nat → Except String Unit) : StepRun :=
  runStepGo env cfg cfg 0 0 ""

/-- `LoginPage.enterUsername`: the standard loop at the class budget. -/
def enterUsername (env : Nat → Except String Unit) : StepRun := runStep retryAttempts env

/-- `LoginPage.enterPassword`: the standard loop at the class budget. -/
def enterPassword (env : Nat → Except String Unit) : StepRun := runStep retryAttempts env

/-- `LoginPage.verifyPasswordInputVisible`: the standard loop at the class
budget (the probe that waits for the password field, failing on the
`loginfail` route or a non-interactive field). -/
def verifyPasswordInputVisible (env : Nat → Except String Unit) : StepRun :=
  runStep retryAttempts env

/-- `LoginPage.verify2FAInputVisible`: the standard loop at the class
budget (the probe that waits for the 2FA code inputs). -/
def verify2FAInputVisible (env : Nat → Except String Unit) : StepRun :=
  runStep retryAttempts env

/-- `LoginPage.enter2FACode`: the standard loop at the class budget. -/
def enter2FACode (env : Nat → Except String Unit) : StepRun := runStep retryAttempts env

/-- `LoginPage.click2FALogin`: the standard loop at the class budget. -/
def click2FALogin (env : Nat → Except String Unit) : StepRun := runStep retryAttempts env

/-- `LoginPage.clickContinue`: budget `expectError ? 1 : retryAttempts`,
and when `expectError` is set, exhausting the budget returns normally
instead of throwing (`if (!expectError) throw ...`). -/
def clickContinue (expectError : Bool) (env : Nat → Except String Unit) : StepRun :=
  let core := runStep (if expectError then 1 else retryAttempts) env
  if expectError then
    match core.result with
    | .error _ => ⟨.ok (), core.attempts, core.waits⟩
    | .ok _ => core
  else core

/-- The outcomes the browser environment supplies to one whole-flow attempt
of `loginWithDynamicTOTP`, indexed by the outer attempt number: the result
of each sub-step and the URL observed after the continue step. -/
structure FlowEnv where
  gotoR : Nat → Except String Unit
  verifyLoginPageR : Nat → Except String Unit
  enterUserR : Nat → Except String Unit
  verifyPwdR : Nat → Except String Unit
  enterPwdR : Nat → Except String Unit
  clickContR : Nat → Except String Unit
  urlAt : Nat → String
  verify2FAR : Nat → Except String Unit
  enter2FAR : Nat → Except String Unit
  click2FAR : Nat → Except String Unit
  verifySuccessR : Nat → Except String Unit

/-- `maxRetries` local of `loginWithDynamicTOTP`. -/
def maxRetries : Nat := 2

/-- One iteration of the `loginWithDynamicTOTP` try block: navigate, verify
the login page, click change-user if visible (which swallows every error),
enter username, verify the password input, enter password, click continue,
then read the URL; if it contains `loginfail` throw, otherwise proceed
straight to 2FA verification, code entry, 2FA submit, and the success
probe — with no check of whether the URL is already the portal. -/
def loginAttempt (env : FlowEnv) (a : Nat) : Except String Unit × List StepTag :=
  seqStep .gotoStep (env.gotoR a)
    (seqStep .verifyLoginPage (env.verifyLoginPageR a)
      (seqStep .changeUser (.ok ())
        (seqStep .enterUser (env.enterUserR a)
          (seqStep .verifyPwd (env.verifyPwdR a)
            (seqStep .enterPwd (env.enterPwdR a)
              (seqStep .clickCont (env.clickContR a)
                (if strIncludes (env.urlAt a) "loginfail" then
                  (.error "Login failed - redirected to login failure page", [])
                 else
                  seqStep .verify2FA (env.verify2FAR a)
                    (seqStep .totpRequest (.ok ())
                      (seqStep .enter2FA (env.enter2FAR a)
                        (seqStep .click2FA (env.click2FAR a)
                          (seqStep .verifySuccess (env.verifySuccessR a)
                            (.ok (), []))))))))))))

/-- The outer while-loop of `loginWithDynamicTOTP`: up to `maxRetries + 1`
whole-flow attempts; any error thrown inside one attempt (including the
`loginfail` rejection) is caught and the entire flow is re-run; once all
attempts fail, throw `Login flow failed after 3 attempts: <last error>`. -/
def loginGo (env : FlowEnv) : Nat → Nat → List StepTag → Except String Unit × List StepTag
  | 0, _, acc => (.error "Login flow failed after 3 attempts: Unknown error", acc)
  | fuel + 1, a, acc =>
      let (r, tr) := loginAttempt env a
      match r with
      | .ok _ => (.ok (), acc ++ tr)
      | .error e =>
          if fuel = 0 then (.error ("Login flow failed after 3 attempts: " ++ e), acc ++ tr)
          else loginGo env fuel (a + 1) (acc ++ tr)

/-- `LoginPage.loginWithDynamicTOTP` of tests/pages/login-page.ts. -/
def loginWithDynamicTOTP (env : FlowEnv) : Except String Unit × List StepTag :=
  loginGo env (maxRetries + 1) 0 []

end LoginPageTs

/-! ## LoginPage (second, unnamed variant of the class)

`clickContinue` here is embedded in full detail: its while-loop observes,
per iteration, whether the continue button became visible within the 5s
wait, the URL read when it did not, whether the button was enabled, and
the URL after a successful click.  The crucial control-flow facts mirrored
from the source are that the `Login failed - invalid credentials` throws
sit inside the try block (so the catch decrements the budget and retries
them), and that after a click `isClicked` is already true, so a caught
post-click error with budget remaining simply lets the while condition end
the loop and the method return normally. -/

namespace Part002

/-- The retry budget (3) used by the inner while-loops of this class. -/
def ccRetries : Nat := 3

/-- What the browser presents to one iteration of the `clickContinue`
loop. -/
structure ContinueObs where
  buttonVisible : Bool
  url : String
  enabled : Bool
  urlAfterClick : String

/-- Result of a `clickContinue` call: the outcome and the number of loop
iterations executed. -/
structure ContinueRun where
  result : Except String Unit
  attempts : Nat
deriving Repr

/-- The `clickContinue` while-loop on the remaining retries.  The `0` base
case is the loop condition failing, which returns normally.  The branches,
in source order: button visible and not enabled decrements and re-loops;
visible and enabled clicks, and a `loginfail` URL after the click throws —
caught, and since `isClicked` is set, remaining budget turns the error
into a normal return while exhausted budget rethrows; button not visible
reads the URL, returning on `portal.html`, throwing the invalid-credentials
error on `loginfail` (caught and retried while budget remains), and
rethrowing the wait timeout otherwise (also caught and retried). -/
def clickContinueGo (env : Nat → ContinueObs) (expectFailure : Bool) :
    Nat → Nat → ContinueRun
  | 0, i => ⟨.ok (), i⟩
  | r + 1, i =>
      let obs := env i
      if obs.buttonVisible then
        if !obs.enabled then clickContinueGo env expectFailure r (i + 1)
        else
          if strIncludes obs.urlAfterClick "loginfail" then
            if expectFailure then ⟨.ok (), i + 1⟩
            else if r = 0 then ⟨.error "Login failed - invalid credentials", i + 1⟩
            else ⟨.ok (), i + 1⟩
          else ⟨.ok (), i + 1⟩
      else
        if strIncludes obs.url "portal.html" then ⟨.ok (), i + 1⟩
        else if strIncludes obs.url "loginfail" then
          if expectFailure then ⟨.ok (), i + 1⟩
          else if r = 0 then ⟨.error "Login failed - invalid credentials", i + 1⟩
          else clickContinueGo env expectFailure r (i + 1)
        else
          if r = 0 then ⟨.error "Timeout 5000ms exceeded waiting for continue button", i + 1⟩
          else clickContinueGo env expectFailure r (i + 1)

/-- `LoginPage.clickContinue` of the unnamed variant, from a fresh loop. -/
def clickContinue (env : Nat → ContinueObs) (expectFailure : Bool) : ContinueRun :=
  clickContinueGo env expectFailure ccRetries 0

/-- The outcomes the environment supplies to this variant's
`loginWithDynamicTOTP`: one outcome per straight-line sub-step, the URL
read at each iteration of the 2FA-check loop, and per-iteration outcomes
of the 2FA sub-steps. -/
structure FlowEnv where
  gotoR : Except String Unit
  verifyLoginPageR : Except String Unit
  enterUserR : Except String Unit
  clickContAR : Except String Unit
  verifyPwdR : Except String Unit
  enterPwdR : Except String Unit
  clickContBR : Except String Unit
  urlAt : Nat → String
  verify2FAAt : Nat → Except String Unit
  enter2FAAt : Nat → Except String Unit
  click2FAAt : Nat → Except String Unit
  verifySuccessR : Except String Unit

/-- The 2FA-check loop of this variant's `loginWithDynamicTOTP` (budget 3):
re-read the URL each iteration; if it contains `twoFactor` or does not
contain `portal.html`, run the 2FA steps (verification probe, code entry —
which requests a TOTP code — and the 2FA submit), catching any error and
retrying until the budget runs out; if the URL contains `portal.html`,
break with no 2FA step at all.  The base case is the loop condition
failing. -/
def twoFALoop (env : FlowEnv) : Nat → Nat → Except String Unit × List StepTag
  | 0, _ => (.ok (), [])
  | r + 1, i =>
      let u := env.urlAt i
      if strIncludes u "twoFactor" || !(strIncludes u "portal.html") then
        match env.verify2FAAt i with
        | .error e =>
            if r = 0 then (.error e, [.verify2FA])
            else
              let rest := twoFALoop env r (i + 1)
              (rest.1, .verify2FA :: rest.2)
        | .ok _ =>
            match env.enter2FAAt i with
            | .error e =>
                if r = 0 then (.error e, [.verify2FA, .totpRequest, .enter2FA])
                else
                  let rest := twoFALoop env r (i + 1)
                  (rest.1, .verify2FA :: .totpRequest :: .enter2FA :: rest.2)
            | .ok _ =>
                match env.click2FAAt i with
                | .error e =>
                    if r = 0 then (.error e, [.verify2FA, .totpRequest, .enter2FA, .click2FA])
                    else
                      let rest := twoFALoop env r (i + 1)
                      (rest.1, .verify2FA :: .totpRequest :: .enter2FA :: .click2FA :: rest.2)
                | .ok _ => (.ok (), [.verify2FA, .totpRequest, .enter2FA, .click2FA])
      else (.ok (), [])

/-- `LoginPage.loginWithDynamicTOTP` of the unnamed variant: navigate,
verify the login page, enter username, continue, verify the password
input, enter password, continue, then the 2FA-check loop, then the final
success probe. -/
def loginWithDynamicTOTP (env : FlowEnv) : Except String Unit × List StepTag :=
  seqStep .gotoStep env.gotoR
    (seqStep .verifyLoginPage env.verifyLoginPageR
      (seqStep .enterUser env.enterUserR
        (seqStep .clickCont env.clickContAR
          (seqStep .verifyPwd env.verifyPwdR
            (seqStep .enterPwd env.enterPwdR
              (seqStep .clickCont env.clickContBR
                (let lr := twoFALoop env ccRetries 0
                 match lr.1 with
                 | .error e => (.error e, lr.2)
                 | .ok _ =>
                     match env.verifySuccessR with
                     | .error e => (.error e, lr.2 ++ [.verifySuccess])
                     | .ok _ => (.ok (), lr.2 ++ [.verifySuccess]))))))))

end Part002

/-! ## Concrete environments used by counterexamples and witnesses -/

/-- An environment for `Part002.clickContinue` in which the very first
iteration clicks successfully and the post-click URL is the `loginfail`
failure route. -/
def c1EnvSwallow : Nat → Part002.ContinueObs :=
  fun _ => ⟨true, "", true, "https://portal.example/auth/loginfail?gotoOnFail=x"⟩

/-- An environment for `Part002.clickContinue` in which the continue button
never appears and every URL read is the `loginfail` failure route. -/
def c1EnvBudget : Nat → Part002.ContinueObs :=
  fun _ => ⟨false, "https://portal.example/auth/loginfail?gotoOnFail=x", true, ""⟩

/-- An environment for the tests/pages/login-page.ts flow in which every
sub-step succeeds and every post-continue URL read is the `loginfail`
failure route. -/
def c1FlowEnv : LoginPageTs.FlowEnv :=
  ⟨fun _ => .ok (), fun _ => .ok (), fun _ => .ok (), fun _ => .ok (), fun _ => .ok (),
   fun _ => .ok (), fun _ => "https://portal.example/auth/loginfail?gotoOnFail=x",
   fun _ => .ok (), fun _ => .ok (), fun _ => .ok (), fun _ => .ok ()⟩

/-- An environment for the tests/pages/login-page.ts flow in which the
continue click lands directly on the authenticated portal destination
(single-factor login): every step succeeds, but the 2FA verification probe
fails, because no 2FA input ever appears on the portal page. -/
def c6FlowEnv : LoginPageTs.FlowEnv :=
  ⟨fun _ => .ok (), fun _ => .ok (), fun _ => .ok (), fun _ => .ok (), fun _ => .ok (),
   fun _ => .ok (), fun _ => "https://portal.example/portal/portal.html#WELCOME_NEWS",
   fun _ => .error "Failed to verify 2FA input after 5 attempts: Timeout 90000ms exceeded",
   fun _ => .ok (), fun _ => .ok (), fun _ => .ok ()⟩

/-- An environment for the unnamed variant's flow in which every
straight-line step succeeds and the post-continue URL is the authenticated
portal destination. -/
def c6P2Env : Part002.FlowEnv :=
  ⟨.ok (), .ok (), .ok (), .ok (), .ok (), .ok (), .ok (),
   fun _ => "https://portal.example/portal/portal.html#WELCOME_NEWS",
   fun _ => .ok (), fun _ => .ok (), fun _ => .ok (), .ok ()⟩

/-- The retry contract of a tests/pages/login-page.ts step: at most
`retryAttempts` attempts are executed, and an exhausted budget produces an
error recording exactly `retryAttempts` attempts, with all `retryAttempts`
attempts made and a wait between each consecutive pair of attempts. -/
def LoginPageTs.stepBounded (run : LoginPageTs.StepRun) : Prop :=
  run.attempts ≤ LoginPageTs.retryAttempts
  ∧ ∀ fi, run.result = .error fi →
      run.attempts = LoginPageTs.retryAttempts
      ∧ fi.recorded = LoginPageTs.retryAttempts
      ∧ run.waits = LoginPageTs.retryAttempts - 1

/-! ## Theorems -/

/-- Decimal digit characters produced by `Nat.digitChar` on values reduced
mod 10 are digits. -/
theorem digitChar_mod_isDigit (m : Nat) : (Nat.digitChar (m % 10)).isDigit = true := by
  have hb : ∀ d, d < 10 → (Nat.digitChar d).isDigit = true := by decide
  exact hb _ (Nat.mod_lt _ (by norm_num))

/-- `totpFormat` always renders exactly six characters. -/
theorem totpFormat_length (n : Nat) : (totpFormat n).length = 6 := rfl

/-- Every character rendered by `totpFormat` is a decimal digit. -/
theorem totpFormat_digits (n : Nat) : (totpFormat n).data.all Char.isDigit = true := by
  simp [totpFormat, List.all, digitChar_mod_isDigit]

/-- A secret accepted by `validateSecret` is non-empty. -/
theorem validateSecret_not_empty (s : String) (h : validateSecret s = true) :
    (s == "") = false := by
  cases hb : s == "" with
  | false => rfl
  | true => simp [validateSecret, hb] at h

/-- `generateTOTPWith` touches the time argument only through the external
generator, so generator-level agreement at two times transfers to the
whole operation. -/
theorem generateTOTPWith_time (gen : String → Nat → Except TOTPError String)
    (secret : Option String) (st : TOTPState) (t1 t2 : Nat)
    (hg : ∀ s, gen s t1 = gen s t2) :
    generateTOTPWith gen secret st t1 = generateTOTPWith gen secret st t2 := by
  cases secret with
  | none => simp only [generateTOTPWith, generateStored, hg]
  | some s => simp only [generateTOTPWith, generateStored, hg]

/-- Claim C2: `validateSecret s` is the pure predicate "s is non-empty and
at least 16 characters long"; every secret it rejects makes `setSecret`
fail with the invalid-secret-format error, and every secret it accepts
makes `setSecret` succeed (storing the encrypted secret in both slots). -/
theorem claim_C2 (s : String) (st : TOTPState) :
    (validateSecret s = true ↔ (s ≠ "" ∧ 16 ≤ s.length))
    ∧ (validateSecret s = false → setSecret s st = .error .invalidSecretFormat)
    ∧ (validateSecret s = true →
        setSecret s st = .ok ⟨some (encryptSecret s), some (encryptSecret s)⟩) := by
  refine ⟨?_, ?_, ?_⟩
  · simp [validateSecret]
  · intro h
    simp [setSecret, h]
  · intro h
    simp [setSecret, h]

/-- Witness for C2 at the repository's real secret and at a short one. -/
theorem claim_C2_witness :
    validateSecret "AB" = false
    ∧ setSecret "AB" emptyState = .error .invalidSecretFormat
    ∧ validateSecret "GHBAMSEXL7DOEWCE" = true
    ∧ setSecret "GHBAMSEXL7DOEWCE" emptyState =
        .ok ⟨some (encryptSecret "GHBAMSEXL7DOEWCE"), some (encryptSecret "GHBAMSEXL7DOEWCE")⟩ :=
  ⟨by decide, (claim_C2 "AB" emptyState).2.1 (by decide), by decide,
   (claim_C2 "GHBAMSEXL7DOEWCE" emptyState).2.2 (by decide)⟩

/-- Claim C3: after `clearSecret`, a `generateTOTP` call without an
override fails with the no-secret-available error — both the in-memory
encrypted secret and the process-wide slot are gone. -/
theorem claim_C3 (st : TOTPState) (t : Nat) :
    generateTOTP none (clearSecret st) t = .error .noSecretAvailable := rfl

/-- Claim C4: for every valid secret, `generateTOTP` succeeds (both with
the secret passed as an override and with the secret stored by a prior
`setSecret`), returning the six-decimal-digit string computed by the
standard HOTP algorithm at counter `t / 30`. -/
theorem claim_C4 (s : String) (st st2 : TOTPState) (t : Nat)
    (h : validateSecret s = true) (hset : setSecret s st = .ok st2) :
    generateTOTP (some s) st t =
      .ok (authGenerate s t, ⟨some (encryptSecret s), some (encryptSecret s)⟩)
    ∧ generateTOTP none st2 t = .ok (authGenerate s t, st2)
    ∧ (authGenerate s t).length = 6
    ∧ (authGenerate s t).data.all Char.isDigit = true
    ∧ authGenerate s t = totpFormat (hotp (base32Decode s) (t / 30)) := by
  have hne : (s == "") = false := validateSecret_not_empty s h
  simp only [setSecret, h, Bool.not_true, Bool.false_eq_true, if_false, ite_false,
    Except.ok.injEq] at hset
  refine ⟨?_, ?_, totpFormat_length _, totpFormat_digits _, rfl⟩
  · simp [generateTOTP, generateTOTPWith, setSecret, authGenerateE, hne, h]
  · rw [← hset]
    simp [generateTOTP, generateTOTPWith, generateStored, decryptSecret, encryptSecret,
      authGenerateE, h]

/-- Witness for C4 at the repository's real secret and time 59. -/
theorem claim_C4_witness :
    validateSecret "GHBAMSEXL7DOEWCE" = true
    ∧ generateTOTP (some "GHBAMSEXL7DOEWCE") emptyState 59 =
        .ok (authGenerate "GHBAMSEXL7DOEWCE" 59,
          ⟨some (encryptSecret "GHBAMSEXL7DOEWCE"), some (encryptSecret "GHBAMSEXL7DOEWCE")⟩)
    ∧ (authGenerate "GHBAMSEXL7DOEWCE" 59).length = 6
    ∧ (authGenerate "GHBAMSEXL7DOEWCE" 59).data.all Char.isDigit = true := by
  have h := claim_C4 "GHBAMSEXL7DOEWCE" emptyState
    ⟨some (encryptSecret "GHBAMSEXL7DOEWCE"), some (encryptSecret "GHBAMSEXL7DOEWCE")⟩ 59
    (by decide) rfl
  exact ⟨by decide, h.1, h.2.2.1, h.2.2.2.1⟩

/-- Claim C5: `generateTOTP` is deterministic within a 30-second time
step — two calls with the same secret and state at times in the same step
return identical results; the time enters only through `t / 30`. -/
theorem claim_C5 (secret : Option String) (st : TOTPState) (t1 t2 : Nat)
    (h : t1 / 30 = t2 / 30) :
    generateTOTP secret st t1 = generateTOTP secret st t2 := by
  apply generateTOTPWith_time
  intro s
  simp only [authGenerateE, authGenerate, h]

/-- Witness for C5 at two times inside the first time step. -/
theorem claim_C5_witness :
    (5 : Nat) / 30 = (20 : Nat) / 30
    ∧ generateTOTP (some "GHBAMSEXL7DOEWCE") emptyState 5 =
        generateTOTP (some "GHBAMSEXL7DOEWCE") emptyState 20 :=
  ⟨by decide, claim_C5 (some "GHBAMSEXL7DOEWCE") emptyState 5 20 (by decide)⟩

/-- Claim C8: `clearSecret` discards both the in-memory encrypted secret
and the process-wide copy, is idempotent, and is a total no-op on the
empty state (calling it with nothing stored raises no error). -/
theorem claim_C8 (st : TOTPState) :
    (clearSecret st).encryptedSecret = none
    ∧ (clearSecret st).globalSlot = none
    ∧ clearSecret (clearSecret st) = clearSecret st
    ∧ clearSecret emptyState = emptyState :=
  ⟨rfl, rfl, rfl, rfl⟩

/-- Claim C10: `setSecret` validates before mutating, so a failing call
changes nothing: after storing a valid secret, a failed `setSecret` of an
invalid one leaves the stored secret usable, and a subsequent override-free
`generateTOTP` still produces the code of the original secret. -/
theorem claim_C10 (s0 s1 : String) (st st2 : TOTPState) (t : Nat)
    (h0 : validateSecret s0 = true) (h1 : validateSecret s1 = false)
    (hset : setSecret s0 st = .ok st2) :
    setSecret s1 st2 = .error .invalidSecretFormat
    ∧ generateTOTP none st2 t = .ok (authGenerate s0 t, st2) := by
  simp only [setSecret, h0, Bool.not_true, Bool.false_eq_true, if_false, ite_false,
    Except.ok.injEq] at hset
  constructor
  · simp [setSecret, h1]
  · rw [← hset]
    simp [generateTOTP, generateTOTPWith, generateStored, decryptSecret, encryptSecret,
      authGenerateE, h0]

/-- Witness for C10: store a valid secret, fail to overwrite it with a
short one, and generate from the surviving stored secret. -/
theorem claim_C10_witness :
    validateSecret "JBSWY3DPEHPK3PXP" = true
    ∧ validateSecret "short" = false
    ∧ setSecret "short" ⟨some (encryptSecret "JBSWY3DPEHPK3PXP"),
        some (encryptSecret "JBSWY3DPEHPK3PXP")⟩ = .error .invalidSecretFormat
    ∧ generateTOTP none ⟨some (encryptSecret "JBSWY3DPEHPK3PXP"),
        some (encryptSecret "JBSWY3DPEHPK3PXP")⟩ 42 =
        .ok (authGenerate "JBSWY3DPEHPK3PXP" 42,
          ⟨some (encryptSecret "JBSWY3DPEHPK3PXP"), some (encryptSecret "JBSWY3DPEHPK3PXP")⟩) := by
  have h := claim_C10 "JBSWY3DPEHPK3PXP" "short" emptyState
    ⟨some (encryptSecret "JBSWY3DPEHPK3PXP"), some (encryptSecret "JBSWY3DPEHPK3PXP")⟩ 42
    (by decide) (by decide) rfl
  exact ⟨by decide, by decide, h.1, h.2⟩

/-- Claim C9, counterexample: when the underlying generator computation
fails, `generateTOTP` propagates the raw underlying error unchanged — the
catch block logs and rethrows, and no code-generation-error wrapper class
exists anywhere in the utility (see `TOTPError`), contrary to the claimed
`CodeGenerationError` wrapping. -/
theorem claim_C9_counterexample :
    validateSecret "GHBAMSEXL7DOEWCE" = true
    ∧ generateTOTPWith (fun _ _ => .error (.external "clock failure"))
        (some "GHBAMSEXL7DOEWCE") emptyState 0 = .error (.external "clock failure") :=
  ⟨by decide, rfl⟩

/-- Claim C9, amended: for every valid available secret whose underlying
code computation fails, `generateTOTP` fails with exactly the underlying
error, unchanged (logged and rethrown, never wrapped). -/
theorem claim_C9 (gen : String → Nat → Except TOTPError String) (s : String)
    (st : TOTPState) (t : Nat) (u : TOTPError)
    (h : validateSecret s = true) (hg : gen s t = .error u) :
    generateTOTPWith gen (some s) st t = .error u := by
  have hne : (s == "") = false := validateSecret_not_empty s h
  simp [generateTOTPWith, setSecret, hne, h, hg]

/-- Witness for the amended C9. -/
theorem claim_C9_witness :
    validateSecret "GHBAMSEXL7DOEWCE" = true
    ∧ generateTOTPWith (fun _ _ => .error (.external "hmac backend gone"))
        (some "GHBAMSEXL7DOEWCE") emptyState 7 = .error (.external "hmac backend gone") :=
  ⟨by decide, claim_C9 (fun _ _ => .error (.external "hmac backend gone"))
    "GHBAMSEXL7DOEWCE" emptyState 7 (.external "hmac backend gone") (by decide) rfl⟩

/-- The step loop makes at most `r` more attempts, and reaches an error
only by exhausting them all, recording the configured budget in the error
and waiting between consecutive attempts. -/
theorem runStepGo_spec (env : Nat → Except String Unit) (cfg : Nat) :
    ∀ r made waits le,
      (LoginPageTs.runStepGo env cfg r made waits le).attempts ≤ made + r
      ∧ ∀ fi, (LoginPageTs.runStepGo env cfg r made waits le).result = .error fi →
          (LoginPageTs.runStepGo env cfg r made waits le).attempts = made + r
          ∧ fi.recorded = cfg
          ∧ (LoginPageTs.runStepGo env cfg r made waits le).waits = waits + (r - 1) := by
  intro r
  induction r with
  | zero =>
    intro made waits le
    refine ⟨by simp [LoginPageTs.runStepGo], ?_⟩
    intro fi hfi
    simp only [LoginPageTs.runStepGo, Except.error.injEq] at hfi
    subst hfi
    exact ⟨by simp [LoginPageTs.runStepGo], rfl, by simp [LoginPageTs.runStepGo]⟩
  | succ r ih =>
    intro made waits le
    simp only [LoginPageTs.runStepGo]
    cases henv : env made with
    | ok u =>
      dsimp only
      refine ⟨by omega, ?_⟩
      intro fi hfi
      exact absurd hfi (by simp)
    | error e =>
      dsimp only
      by_cases hr : 0 < r
      · simp only [hr, if_true]
        have hrec := ih (made + 1) (waits + 1) e
        refine ⟨by have := hrec.1; omega, ?_⟩
        intro fi hfi
        obtain ⟨ha, hb, hc⟩ := hrec.2 fi hfi
        exact ⟨by omega, hb, by omega⟩
      · simp only [hr, if_false]
        have hr0 : r = 0 := by omega
        subst hr0
        have hrec := ih (made + 1) waits e
        refine ⟨by have := hrec.1; omega, ?_⟩
        intro fi hfi
        obtain ⟨ha, hb, hc⟩ := hrec.2 fi hfi
        exact ⟨by omega, hb, by omega⟩

/-- `runStep` at budget `cfg` satisfies the retry contract. -/
theorem runStep_spec (cfg : Nat) (env : Nat → Except String Unit) :
    (LoginPageTs.runStep cfg env).attempts ≤ cfg
    ∧ ∀ fi, (LoginPageTs.runStep cfg env).result = .error fi →
        (LoginPageTs.runStep cfg env).attempts = cfg
        ∧ fi.recorded = cfg
        ∧ (LoginPageTs.runStep cfg env).waits = cfg - 1 := by
  have h := runStepGo_spec env cfg cfg 0 0 ""
  simpa [LoginPageTs.runStep] using h

/-- Claim C7: every per-step operation of the page object (username entry,
password entry, continue click, 2FA code entry, 2FA submit, and the two
verification probes) re-attempts at most the fixed class budget
`retryAttempts` (which lies in the observed 3-to-5 range), waits between
consecutive attempts, and, when the budget is exhausted, raises an error
recording exactly the configured budget; the bound holds for every
environment, so no step loops unboundedly. -/
theorem claim_C7 (env : Nat → Except String Unit) :
    (3 ≤ LoginPageTs.retryAttempts ∧ LoginPageTs.retryAttempts ≤ 5)
    ∧ LoginPageTs.stepBounded (LoginPageTs.enterUsername env)
    ∧ LoginPageTs.stepBounded (LoginPageTs.enterPassword env)
    ∧ LoginPageTs.stepBounded (LoginPageTs.clickContinue false env)
    ∧ LoginPageTs.stepBounded (LoginPageTs.enter2FACode env)
    ∧ LoginPageTs.stepBounded (LoginPageTs.click2FALogin env)
    ∧ LoginPageTs.stepBounded (LoginPageTs.verifyPasswordInputVisible env)
    ∧ LoginPageTs.stepBounded (LoginPageTs.verify2FAInputVisible env) := by
  have h := runStep_spec LoginPageTs.retryAttempts env
  exact ⟨⟨by norm_num [LoginPageTs.retryAttempts], by norm_num [LoginPageTs.retryAttempts]⟩,
    h, h, h, h, h, h, h⟩

/-- Witness for C7: an environment whose attempts all fail drives
`enterUsername` to exactly five attempts, an error recording five, and
four waits. -/
theorem claim_C7_witness :
    (LoginPageTs.enterUsername fun _ => .error "timeout").result = .error ⟨5, "timeout"⟩
    ∧ (LoginPageTs.enterUsername fun _ => .error "timeout").attempts = LoginPageTs.retryAttempts
    ∧ (LoginPageTs.enterUsername fun _ => .error "timeout").waits =
        LoginPageTs.retryAttempts - 1 := by
  have h := (claim_C7 fun _ => .error "timeout").2.1
  exact ⟨rfl, (h.2 ⟨5, "timeout"⟩ rfl).1, (h.2 ⟨5, "timeout"⟩ rfl).2.2⟩

/-- One pre-click iteration of the unnamed variant's `clickContinue` loop
observing the `loginfail` route: the invalid-credentials throw is caught,
the budget decremented, and the loop re-entered. -/
theorem p2cc_step_loginfail (env : Nat → Part002.ContinueObs) (r i : Nat)
    (hv : (env i).buttonVisible = false)
    (hp : strIncludes (env i).url "portal.html" = false)
    (hl : strIncludes (env i).url "loginfail" = true)
    (hr : r ≠ 0) :
    Part002.clickContinueGo env false (r + 1) i =
      Part002.clickContinueGo env false r (i + 1) := by
  simp only [Part002.clickContinueGo, hv, hp, hl]
  simp [hr]

/-- The final pre-click iteration observing `loginfail`: the budget hits
zero and the invalid-credentials error is rethrown. -/
theorem p2cc_last_loginfail (env : Nat → Part002.ContinueObs) (i : Nat)
    (hv : (env i).buttonVisible = false)
    (hp : strIncludes (env i).url "portal.html" = false)
    (hl : strIncludes (env i).url "loginfail" = true) :
    Part002.clickContinueGo env false (0 + 1) i =
      ⟨.error "Login failed - invalid credentials", i + 1⟩ := by
  simp only [Part002.clickContinueGo, hv, hp, hl]
  simp

/-- Claim C1, counterexample: the `loginfail` signal does not stop the
flow.  In the unnamed variant's `clickContinue`, a first-iteration click
landing on `loginfail` is caught and, with budget remaining, the call
returns success after one attempt instead of failing; when the signal is
observed before the click, the loop re-attempts until all three budgeted
attempts are spent; and in tests/pages/login-page.ts, the whole
`loginWithDynamicTOTP` flow re-runs from navigation after the signal,
executing `goto` three times before surfacing the failure. -/
theorem claim_C1_counterexample :
    strIncludes ((c1EnvSwallow 0).urlAfterClick) "loginfail" = true
    ∧ Part002.clickContinue c1EnvSwallow false = ⟨.ok (), 1⟩
    ∧ strIncludes ((c1EnvBudget 0).url) "loginfail" = true
    ∧ Part002.clickContinue c1EnvBudget false = ⟨.error "Login failed - invalid credentials", 3⟩
    ∧ (LoginPageTs.loginWithDynamicTOTP c1FlowEnv).2.count .gotoStep = 3
    ∧ (LoginPageTs.loginWithDynamicTOTP c1FlowEnv).1 =
        .error "Login flow failed after 3 attempts: Login failed - redirected to login failure page" :=
  ⟨rfl, rfl, rfl, rfl, rfl, rfl⟩

/-- Claim C1, amended: observing the `loginfail` route makes the unnamed
variant's `clickContinue` raise the invalid-credentials error, but the
error is retried like any transient failure rather than surfaced
immediately: when the continue button never appears and every URL read
shows `loginfail`, the call re-attempts until its 3-attempt budget is
exhausted and only then fails with `Login failed - invalid credentials`. -/
theorem claim_C1 (env : Nat → Part002.ContinueObs)
    (h : ∀ i, (env i).buttonVisible = false
        ∧ strIncludes (env i).url "portal.html" = false
        ∧ strIncludes (env i).url "loginfail" = true) :
    Part002.clickContinue env false = ⟨.error "Login failed - invalid credentials", 3⟩ := by
  obtain ⟨hv0, hp0, hl0⟩ := h 0
  obtain ⟨hv1, hp1, hl1⟩ := h 1
  obtain ⟨hv2, hp2, hl2⟩ := h 2
  show Part002.clickContinueGo env false (2 + 1) 0 = _
  rw [p2cc_step_loginfail env 2 0 hv0 hp0 hl0 (by norm_num)]
  show Part002.clickContinueGo env false (1 + 1) 1 = _
  rw [p2cc_step_loginfail env 1 1 hv1 hp1 hl1 (by norm_num)]
  show Part002.clickContinueGo env false (0 + 1) 2 = _
  rw [p2cc_last_loginfail env 2 hv2 hp2 hl2]

/-- Witness for the amended C1 at the concrete always-`loginfail`
environment. -/
theorem claim_C1_witness :
    ((c1EnvBudget 0).buttonVisible = false
      ∧ strIncludes (c1EnvBudget 0).url "portal.html" = false
      ∧ strIncludes (c1EnvBudget 0).url "loginfail" = true)
    ∧ Part002.clickContinue c1EnvBudget false =
        ⟨.error "Login failed - invalid credentials", 3⟩ :=
  ⟨⟨rfl, rfl, rfl⟩, claim_C1 c1EnvBudget fun _ => ⟨rfl, rfl, rfl⟩⟩

/-- Claim C6, counterexample: in tests/pages/login-page.ts the machine
does not skip 2FA when the post-continue URL is already the authenticated
portal destination — `loginWithDynamicTOTP` proceeds to the 2FA
verification probe unconditionally, and when no 2FA input exists on the
portal page the whole login fails after its three flow attempts instead of
succeeding as a single-factor login. -/
theorem claim_C6_counterexample :
    strIncludes (c6FlowEnv.urlAt 0) "portal.html" = true
    ∧ strIncludes (c6FlowEnv.urlAt 0) "loginfail" = false
    ∧ StepTag.verify2FA ∈ (LoginPageTs.loginWithDynamicTOTP c6FlowEnv).2
    ∧ (LoginPageTs.loginWithDynamicTOTP c6FlowEnv).1 =
        .error "Login flow failed after 3 attempts: Failed to verify 2FA input after 5 attempts: Timeout 90000ms exceeded" :=
  ⟨rfl, rfl, by decide, rfl⟩

/-- Claim C6, amended: only the unnamed variant's `loginWithDynamicTOTP`
implements the claimed behavior: it inspects the post-continue URL, and
when that URL contains `portal.html` (and not `twoFactor`), the 2FA-check
loop breaks immediately, so no 2FA verification, no code entry, no TOTP
request, and no 2FA submit occur; the tests/pages/login-page.ts variant
instead always proceeds to 2FA (see the counterexample). -/
theorem claim_C6 (env : Part002.FlowEnv)
    (hgoto : env.gotoR = .ok ()) (hvlp : env.verifyLoginPageR = .ok ())
    (huser : env.enterUserR = .ok ()) (hca : env.clickContAR = .ok ())
    (hvpw : env.verifyPwdR = .ok ()) (hpw : env.enterPwdR = .ok ())
    (hcb : env.clickContBR = .ok ())
    (hu1 : strIncludes (env.urlAt 0) "portal.html" = true)
    (hu2 : strIncludes (env.urlAt 0) "twoFactor" = false) :
    StepTag.verify2FA ∉ (Part002.loginWithDynamicTOTP env).2
    ∧ StepTag.totpRequest ∉ (Part002.loginWithDynamicTOTP env).2
    ∧ StepTag.enter2FA ∉ (Part002.loginWithDynamicTOTP env).2
    ∧ StepTag.click2FA ∉ (Part002.loginWithDynamicTOTP env).2 := by
  have hloop : Part002.twoFALoop env Part002.ccRetries 0 = (.ok (), []) := by
    show Part002.twoFALoop env (2 + 1) 0 = (.ok (), [])
    simp only [Part002.twoFALoop, hu1, hu2]
    simp
  have hflow : (Part002.loginWithDynamicTOTP env).2 =
      [.gotoStep, .verifyLoginPage, .enterUser, .clickCont, .verifyPwd, .enterPwd, .clickCont,
       .verifySuccess] := by
    cases hvs : env.verifySuccessR with
    | ok u =>
      simp [Part002.loginWithDynamicTOTP, seqStep, hgoto, hvlp, huser, hca, hvpw, hpw, hcb,
        hloop, hvs]
    | error e =>
      simp [Part002.loginWithDynamicTOTP, seqStep, hgoto, hvlp, huser, hca, hvpw, hpw, hcb,
        hloop, hvs]
  rw [hflow]
  exact ⟨by decide, by decide, by decide, by decide⟩

/-- Witness for the amended C6 at the concrete all-success portal-URL
environment. -/
theorem claim_C6_witness :
    strIncludes (c6P2Env.urlAt 0) "portal.html" = true
    ∧ strIncludes (c6P2Env.urlAt 0) "twoFactor" = false
    ∧ StepTag.verify2FA ∉ (Part002.loginWithDynamicTOTP c6P2Env).2
    ∧ StepTag.totpRequest ∉ (Part002.loginWithDynamicTOTP c6P2Env).2 := by
  have h := claim_C6 c6P2Env rfl rfl rfl rfl rfl rfl rfl rfl rfl
  exact ⟨rfl, rfl, h.1, h.2.1⟩
